import Mathlib

/-!
Verification development for the netlink-packet-route attribute codec.

The Rust source is embedded shallowly: bytes are `Nat` values below 256 in
`List Nat`, machine integers are `Nat` with explicit width bounds, and
fallible parsing returns `Except String`.  Multi-byte integers use
little-endian byte order for "native endian" fields (the wire format is
defined in terms of the producing system's native order, conventionally
little-endian) and big-endian where the source says so (ports).

Helpers of the `netlink_packet_utils` support crate (scalar parsers, the
`DefaultNla` opaque attribute, the NLA record layout and iterator, the
slice emitter) are not part of the analyzed sources; they are modelled
from the specification, marked `Modelled from the spec:` below.
-/

/-- Modelled from the spec: scalar parser `parse_u8` of the support crate.
Fails unless the payload is exactly one byte wide. -/
def parse_u8 (payload : List Nat) : Except String Nat :=
  match payload with
  | [b0] => .ok b0
  | _ => .error "invalid u8"

/-- Modelled from the spec: scalar parser `parse_u16` (native/little endian).
Fails unless the payload is exactly two bytes wide. -/
def parse_u16 (payload : List Nat) : Except String Nat :=
  match payload with
  | [b0, b1] => .ok (b0 + 256 * b1)
  | _ => .error "invalid u16"

/-- Modelled from the spec: scalar parser `parse_u16_be` (big endian). -/
def parse_u16_be (payload : List Nat) : Except String Nat :=
  match payload with
  | [b0, b1] => .ok (256 * b0 + b1)
  | _ => .error "invalid u16"

/-- Modelled from the spec: scalar parser `parse_u32` (native/little endian).
Fails unless the payload is exactly four bytes wide. -/
def parse_u32 (payload : List Nat) : Except String Nat :=
  match payload with
  | [b0, b1, b2, b3] => .ok (b0 + 256 * b1 + 65536 * b2 + 16777216 * b3)
  | _ => .error "invalid u32"

/-- `NativeEndian::write_u16`: the two little-endian bytes of `v`. -/
def write_u16_le (v : Nat) : List Nat :=
  [v % 256, v / 256 % 256]

/-- `BigEndian::write_u16`: the two big-endian bytes of `v`. -/
def write_u16_be (v : Nat) : List Nat :=
  [v / 256 % 256, v % 256]

/-- `NativeEndian::write_u32`: the four little-endian bytes of `v`. -/
def write_u32_le (v : Nat) : List Nat :=
  [v % 256, v / 256 % 256, v / 65536 % 256, v / 16777216 % 256]

/-- Boolean check that an `Except` value is a success. -/
def Except.isOkB {ε α : Type} : Except ε α → Bool
  | .ok _ => true
  | .error _ => false

instance {ε α : Type} [DecidableEq ε] [DecidableEq α] :
    DecidableEq (Except ε α) := fun x y =>
  match x, y with
  | .ok a, .ok b =>
      if h : a = b then .isTrue (by rw [h])
      else .isFalse (by intro hc; cases hc; exact h rfl)
  | .ok _, .error _ => .isFalse (by intro hc; cases hc)
  | .error _, .ok _ => .isFalse (by intro hc; cases hc)
  | .error e, .error f =>
      if h : e = f then .isTrue (by rw [h])
      else .isFalse (by intro hc; cases hc; exact h rfl)

/-- Modelled from the spec: the parsed view of one raw TLV attribute record —
its kind code and its value bytes (the `NlaBuffer` accessors `kind()` and
`value()`). -/
structure NlaRaw where
  kind : Nat
  value : List Nat
deriving DecidableEq, Repr

/-- Modelled from the spec: the opaque fallback attribute `DefaultNla`,
storing kind code and raw value bytes verbatim. -/
structure DefaultNla where
  kind : Nat
  value : List Nat
deriving DecidableEq, Repr

/-- Modelled from the spec: `DefaultNla::parse` copies the record's kind and
value bytes; it never fails on a structurally valid record. -/
def DefaultNla.parse (buf : NlaRaw) : Except String DefaultNla :=
  .ok ⟨buf.kind, buf.value⟩

def DefaultNla.value_len (nla : DefaultNla) : Nat := nla.value.length

def DefaultNla.emit_value (nla : DefaultNla) : List Nat := nla.value

def DefaultNla.kindOf (nla : DefaultNla) : Nat := nla.kind

def IFLA_VXLAN_ID : Nat := 1
def IFLA_VXLAN_GROUP : Nat := 2
def IFLA_VXLAN_LINK : Nat := 3
def IFLA_VXLAN_LOCAL : Nat := 4
def IFLA_VXLAN_TTL : Nat := 5
def IFLA_VXLAN_TOS : Nat := 6
def IFLA_VXLAN_LEARNING : Nat := 7
def IFLA_VXLAN_AGEING : Nat := 8
def IFLA_VXLAN_LIMIT : Nat := 9
def IFLA_VXLAN_PORT_RANGE : Nat := 10
def IFLA_VXLAN_PROXY : Nat := 11
def IFLA_VXLAN_RSC : Nat := 12
def IFLA_VXLAN_L2MISS : Nat := 13
def IFLA_VXLAN_L3MISS : Nat := 14
def IFLA_VXLAN_PORT : Nat := 15
def IFLA_VXLAN_GROUP6 : Nat := 16
def IFLA_VXLAN_LOCAL6 : Nat := 17
def IFLA_VXLAN_UDP_CSUM : Nat := 18
def IFLA_VXLAN_UDP_ZERO_CSUM6_TX : Nat := 19
def IFLA_VXLAN_UDP_ZERO_CSUM6_RX : Nat := 20
def IFLA_VXLAN_REMCSUM_TX : Nat := 21
def IFLA_VXLAN_REMCSUM_RX : Nat := 22
def IFLA_VXLAN_GBP : Nat := 23
def IFLA_VXLAN_REMCSUM_NOPARTIAL : Nat := 24
def IFLA_VXLAN_COLLECT_METADATA : Nat := 25
def IFLA_VXLAN_LABEL : Nat := 26
def IFLA_VXLAN_GPE : Nat := 27
def IFLA_VXLAN_TTL_INHERIT : Nat := 28
def IFLA_VXLAN_DF : Nat := 29
def IFLA_VXLAN_VNIFILTER : Nat := 30
def IFLA_VXLAN_LOCALBYPASS : Nat := 31

/-- The `InfoVxlan` attribute family.  IPv4 addresses are 4-byte lists,
IPv6 addresses 16-byte lists; integers are `Nat` with the Rust width
recorded in `wf` below. -/
inductive InfoVxlan where
  | Id (v : Nat)
  | Group (a : List Nat)
  | Group6 (a : List Nat)
  | Link (v : Nat)
  | Local (a : List Nat)
  | Local6 (a : List Nat)
  | Tos (v : Nat)
  | Ttl (v : Nat)
  | Label (v : Nat)
  | Learning (b : Bool)
  | Ageing (v : Nat)
  | Limit (v : Nat)
  | PortRange (p : Nat × Nat)
  | Proxy (b : Bool)
  | Rsc (b : Bool)
  | L2Miss (b : Bool)
  | L3Miss (b : Bool)
  | CollectMetadata (b : Bool)
  | Port (v : Nat)
  | UDPCsum (b : Bool)
  | UDPZeroCsumTX (b : Bool)
  | UDPZeroCsumRX (b : Bool)
  | RemCsumTX (b : Bool)
  | RemCsumRX (b : Bool)
  | Gbp (b : Bool)
  | Gpe (b : Bool)
  | RemCsumNoPartial (b : Bool)
  | TtlInherit (b : Bool)
  | Df (v : Nat)
  | Vnifilter (b : Bool)
  | Localbypass (b : Bool)
  | Other (nla : DefaultNla)
deriving DecidableEq, Repr

namespace InfoVxlan

/-- `<InfoVxlan as Nla>::value_len`. -/
def value_len : InfoVxlan → Nat
  | Tos _ | Ttl _ | Learning _ | Proxy _ | Rsc _ | L2Miss _ | L3Miss _
  | CollectMetadata _ | UDPCsum _ | UDPZeroCsumTX _ | UDPZeroCsumRX _
  | RemCsumTX _ | RemCsumRX _ | TtlInherit _ | Df _ | Vnifilter _
  | Localbypass _ => 1
  | Gbp _ | Gpe _ | RemCsumNoPartial _ => 0
  | Port _ => 2
  | Id _ | Label _ | Link _ | Ageing _ | Limit _ | PortRange _
  | Group _ | Local _ => 4
  | Group6 _ | Local6 _ => 16
  | Other nla => nla.value_len

/-- `<InfoVxlan as Nla>::emit_value`, as the byte list written into the
`value_len`-sized buffer. -/
def emit_value : InfoVxlan → List Nat
  | Id v | Label v | Link v | Ageing v | Limit v => write_u32_le v
  | Gbp _ | Gpe _ | RemCsumNoPartial _ => []
  | Tos v | Ttl v | Df v => [v]
  | Vnifilter b | Localbypass b | Learning b | Proxy b | Rsc b
  | L2Miss b | L3Miss b | CollectMetadata b | UDPCsum b
  | UDPZeroCsumTX b | UDPZeroCsumRX b | RemCsumTX b | RemCsumRX b
  | TtlInherit b => [if b then 1 else 0]
  | Group a | Local a => a
  | Group6 a | Local6 a => a
  | Port v => write_u16_be v
  | PortRange r => write_u16_be r.1 ++ write_u16_be r.2
  | Other nla => nla.emit_value

/-- `<InfoVxlan as Nla>::kind`. -/
def kindOf : InfoVxlan → Nat
  | Id _ => IFLA_VXLAN_ID
  | Group _ => IFLA_VXLAN_GROUP
  | Group6 _ => IFLA_VXLAN_GROUP6
  | Link _ => IFLA_VXLAN_LINK
  | Local _ => IFLA_VXLAN_LOCAL
  | Local6 _ => IFLA_VXLAN_LOCAL6
  | Tos _ => IFLA_VXLAN_TOS
  | Ttl _ => IFLA_VXLAN_TTL
  | Label _ => IFLA_VXLAN_LABEL
  | Learning _ => IFLA_VXLAN_LEARNING
  | Ageing _ => IFLA_VXLAN_AGEING
  | Limit _ => IFLA_VXLAN_LIMIT
  | PortRange _ => IFLA_VXLAN_PORT_RANGE
  | Proxy _ => IFLA_VXLAN_PROXY
  | Rsc _ => IFLA_VXLAN_RSC
  | L2Miss _ => IFLA_VXLAN_L2MISS
  | L3Miss _ => IFLA_VXLAN_L3MISS
  | CollectMetadata _ => IFLA_VXLAN_COLLECT_METADATA
  | Port _ => IFLA_VXLAN_PORT
  | UDPCsum _ => IFLA_VXLAN_UDP_CSUM
  | UDPZeroCsumTX _ => IFLA_VXLAN_UDP_ZERO_CSUM6_TX
  | UDPZeroCsumRX _ => IFLA_VXLAN_UDP_ZERO_CSUM6_RX
  | RemCsumTX _ => IFLA_VXLAN_REMCSUM_TX
  | RemCsumRX _ => IFLA_VXLAN_REMCSUM_RX
  | Gbp _ => IFLA_VXLAN_GBP
  | Gpe _ => IFLA_VXLAN_GPE
  | RemCsumNoPartial _ => IFLA_VXLAN_REMCSUM_NOPARTIAL
  | TtlInherit _ => IFLA_VXLAN_TTL_INHERIT
  | Df _ => IFLA_VXLAN_DF
  | Vnifilter _ => IFLA_VXLAN_VNIFILTER
  | Localbypass _ => IFLA_VXLAN_LOCALBYPASS
  | Other nla => nla.kindOf

/-- `<InfoVxlan as Parseable>::parse`, dispatching on the record's kind code. -/
def parse (buf : NlaRaw) : Except String InfoVxlan :=
  let payload := buf.value
  if buf.kind = IFLA_VXLAN_ID then (parse_u32 payload).map Id
  else if buf.kind = IFLA_VXLAN_GROUP then
    if payload.length = 4 then .ok (Group payload)
    else .error "Invalid IFLA_VXLAN_GROUP, got unexpected length of IPv4 address payload"
  else if buf.kind = IFLA_VXLAN_LOCAL then
    if payload.length = 4 then .ok (Local payload)
    else .error "Invalid IFLA_VXLAN_LOCAL, got unexpected length of IPv4 address payload"
  else if buf.kind = IFLA_VXLAN_GROUP6 then
    if payload.length = 16 then .ok (Group6 payload)
    else .error "Invalid IFLA_VXLAN_GROUP6, got unexpected length of IPv6 address payload"
  else if buf.kind = IFLA_VXLAN_LOCAL6 then
    if payload.length = 16 then .ok (Local6 payload)
    else .error "Invalid IFLA_VXLAN_LOCAL6, got unexpected length of IPv6 address payload"
  else if buf.kind = IFLA_VXLAN_LINK then (parse_u32 payload).map Link
  else if buf.kind = IFLA_VXLAN_TOS then (parse_u8 payload).map Tos
  else if buf.kind = IFLA_VXLAN_TTL then (parse_u8 payload).map Ttl
  else if buf.kind = IFLA_VXLAN_LABEL then (parse_u32 payload).map Label
  else if buf.kind = IFLA_VXLAN_LEARNING then
    (parse_u8 payload).map (fun v => Learning (decide (0 < v)))
  else if buf.kind = IFLA_VXLAN_AGEING then (parse_u32 payload).map Ageing
  else if buf.kind = IFLA_VXLAN_LIMIT then (parse_u32 payload).map Limit
  else if buf.kind = IFLA_VXLAN_PROXY then
    (parse_u8 payload).map (fun v => Proxy (decide (0 < v)))
  else if buf.kind = IFLA_VXLAN_RSC then
    (parse_u8 payload).map (fun v => Rsc (decide (0 < v)))
  else if buf.kind = IFLA_VXLAN_L2MISS then
    (parse_u8 payload).map (fun v => L2Miss (decide (0 < v)))
  else if buf.kind = IFLA_VXLAN_L3MISS then
    (parse_u8 payload).map (fun v => L3Miss (decide (0 < v)))
  else if buf.kind = IFLA_VXLAN_COLLECT_METADATA then
    (parse_u8 payload).map (fun v => CollectMetadata (decide (0 < v)))
  else if buf.kind = IFLA_VXLAN_PORT_RANGE then
    if payload.length ≠ 4 then .error "invalid IFLA_VXLAN_PORT value"
    else do
      let low ← parse_u16_be (payload.take 2)
      let high ← parse_u16_be (payload.drop 2)
      .ok (PortRange (low, high))
  else if buf.kind = IFLA_VXLAN_PORT then (parse_u16_be payload).map Port
  else if buf.kind = IFLA_VXLAN_UDP_CSUM then
    (parse_u8 payload).map (fun v => UDPCsum (decide (0 < v)))
  else if buf.kind = IFLA_VXLAN_UDP_ZERO_CSUM6_TX then
    (parse_u8 payload).map (fun v => UDPZeroCsumTX (decide (0 < v)))
  else if buf.kind = IFLA_VXLAN_UDP_ZERO_CSUM6_RX then
    (parse_u8 payload).map (fun v => UDPZeroCsumRX (decide (0 < v)))
  else if buf.kind = IFLA_VXLAN_REMCSUM_TX then
    (parse_u8 payload).map (fun v => RemCsumTX (decide (0 < v)))
  else if buf.kind = IFLA_VXLAN_REMCSUM_RX then
    (parse_u8 payload).map (fun v => RemCsumRX (decide (0 < v)))
  else if buf.kind = IFLA_VXLAN_DF then (parse_u8 payload).map Df
  else if buf.kind = IFLA_VXLAN_GBP then .ok (Gbp true)
  else if buf.kind = IFLA_VXLAN_GPE then .ok (Gpe true)
  else if buf.kind = IFLA_VXLAN_REMCSUM_NOPARTIAL then .ok (RemCsumNoPartial true)
  else if buf.kind = IFLA_VXLAN_TTL_INHERIT then
    (parse_u8 payload).map (fun v => TtlInherit (decide (0 < v)))
  else if buf.kind = IFLA_VXLAN_VNIFILTER then
    (parse_u8 payload).map (fun v => Vnifilter (decide (0 < v)))
  else if buf.kind = IFLA_VXLAN_LOCALBYPASS then
    (parse_u8 payload).map (fun v => Localbypass (decide (0 < v)))
  else (DefaultNla.parse buf).map Other

/-- Well-formedness: each payload is within the width of its Rust type
(`u8`/`u16`/`u32`, 4-byte IPv4 octets, 16-byte IPv6 octets). -/
def wf : InfoVxlan → Bool
  | Id v | Label v | Link v | Ageing v | Limit v => v < 4294967296
  | Group a | Local a => a.length = 4
  | Group6 a | Local6 a => a.length = 16
  | Tos v | Ttl v | Df v => v < 256
  | Port v => v < 65536
  | PortRange r => r.1 < 65536 && r.2 < 65536
  | _ => true

/-- The presence-only variants (`Gbp`, `Gpe`, `RemCsumNoPartial`) carrying
`false`: their zero-length encoding re-parses as `true`. -/
def presenceFalse : InfoVxlan → Bool
  | Gbp b | Gpe b | RemCsumNoPartial b => !b
  | _ => false

/-- Whether the value is the opaque fallback variant. -/
def isOtherVariant : InfoVxlan → Bool
  | Other _ => true
  | _ => false

end InfoVxlan

def IFLA_IPVLAN_MODE : Nat := 1
def IFLA_IPVLAN_FLAGS : Nat := 2

def IPVLAN_MODE_L2 : Nat := 0
def IPVLAN_MODE_L3 : Nat := 1
def IPVLAN_MODE_L3S : Nat := 2

/-- The `IpVlanMode` bounded enumeration with its unknown-code escape. -/
inductive IpVlanMode where
  | L2
  | L3
  | L3S
  | OtherMode (d : Nat)
deriving DecidableEq, Repr

/-- `From<u16> for IpVlanMode`. -/
def IpVlanMode.fromU16 : Nat → IpVlanMode
  | 0 => .L2
  | 1 => .L3
  | 2 => .L3S
  | d => .OtherMode d

/-- `From<IpVlanMode> for u16`. -/
def IpVlanMode.toU16 : IpVlanMode → Nat
  | .L2 => IPVLAN_MODE_L2
  | .L3 => IPVLAN_MODE_L3
  | .L3S => IPVLAN_MODE_L3S
  | .OtherMode d => d

/-- `IpVtapMode` is a type alias of `IpVlanMode` in the source. -/
abbrev IpVtapMode := IpVlanMode

def IPVLAN_F_PRIVATE : Nat := 1
def IPVLAN_F_VEPA : Nat := 2

/-- The `IpVlanFlags` bit-flag set: an integer-backed set that retains all
bits, named or not (`const _ = !0` in the bitflags declaration). -/
structure IpVlanFlags where
  bits : Nat
deriving DecidableEq, Repr

/-- `IpVlanFlags::from_bits_retain`: keeps every bit of the raw word. -/
def IpVlanFlags.from_bits_retain (w : Nat) : IpVlanFlags := ⟨w⟩

/-- `IpVtapFlags` is a type alias of `IpVlanFlags` in the source. -/
abbrev IpVtapFlags := IpVlanFlags

/-- The `InfoIpVlan` attribute family. -/
inductive InfoIpVlan where
  | Mode (m : IpVlanMode)
  | Flags (f : IpVlanFlags)
  | Other (nla : DefaultNla)
deriving DecidableEq, Repr

namespace InfoIpVlan

/-- `<InfoIpVlan as Nla>::value_len`. -/
def value_len : InfoIpVlan → Nat
  | Mode _ | Flags _ => 2
  | Other nla => nla.value_len

/-- `<InfoIpVlan as Nla>::emit_value`. -/
def emit_value : InfoIpVlan → List Nat
  | Mode m => write_u16_le m.toU16
  | Flags f => write_u16_le f.bits
  | Other nla => nla.emit_value

/-- `<InfoIpVlan as Nla>::kind`. -/
def kindOf : InfoIpVlan → Nat
  | Mode _ => IFLA_IPVLAN_MODE
  | Flags _ => IFLA_IPVLAN_FLAGS
  | Other nla => nla.kindOf

/-- `<InfoIpVlan as Parseable>::parse`. -/
def parse (buf : NlaRaw) : Except String InfoIpVlan :=
  let payload := buf.value
  if buf.kind = IFLA_IPVLAN_MODE then
    (parse_u16 payload).map (fun v => Mode (IpVlanMode.fromU16 v))
  else if buf.kind = IFLA_IPVLAN_FLAGS then
    (parse_u16 payload).map (fun v => Flags (IpVlanFlags.from_bits_retain v))
  else (DefaultNla.parse buf).map Other

end InfoIpVlan

/-- The `InfoIpVtap` attribute family, a structural twin of `InfoIpVlan`
(`IpVtapMode`/`IpVtapFlags` are aliases of the ipvlan payload types). -/
inductive InfoIpVtap where
  | Mode (m : IpVtapMode)
  | Flags (f : IpVtapFlags)
  | Other (nla : DefaultNla)
deriving DecidableEq, Repr

namespace InfoIpVtap

/-- `<InfoIpVtap as Nla>::value_len`. -/
def value_len : InfoIpVtap → Nat
  | Mode _ | Flags _ => 2
  | Other nla => nla.value_len

/-- `<InfoIpVtap as Nla>::emit_value`. -/
def emit_value : InfoIpVtap → List Nat
  | Mode m => write_u16_le m.toU16
  | Flags f => write_u16_le f.bits
  | Other nla => nla.emit_value

/-- `<InfoIpVtap as Nla>::kind`. -/
def kindOf : InfoIpVtap → Nat
  | Mode _ => IFLA_IPVLAN_MODE
  | Flags _ => IFLA_IPVLAN_FLAGS
  | Other nla => nla.kindOf

/-- `<InfoIpVtap as Parseable>::parse`. -/
def parse (buf : NlaRaw) : Except String InfoIpVtap :=
  let payload := buf.value
  if buf.kind = IFLA_IPVLAN_MODE then
    (parse_u16 payload).map (fun v => Mode (IpVlanMode.fromU16 v))
  else if buf.kind = IFLA_IPVLAN_FLAGS then
    (parse_u16 payload).map (fun v => Flags (IpVlanFlags.from_bits_retain v))
  else (DefaultNla.parse buf).map Other

end InfoIpVtap

/-- The constructor renaming between the two ipvlan-shaped families. -/
def ipVtapOfIpVlan : InfoIpVlan → InfoIpVtap
  | .Mode m => .Mode m
  | .Flags f => .Flags f
  | .Other nla => .Other nla

def IFLA_BOND_PORT_STATE_ACTIVE : Nat := 0
def IFLA_BOND_PORT_STATE_BACKUP : Nat := 1

def IFLA_BOND_PORT_MII_STATUS_UP : Nat := 0
def IFLA_BOND_PORT_MII_STATUS_GOING_DOWN : Nat := 1
def IFLA_BOND_PORT_MII_STATUS_DOWN : Nat := 2
def IFLA_BOND_PORT_MII_STATUS_GOING_BACK : Nat := 3

/-- The `BondPortState` bounded enumeration with its unknown-code escape. -/
inductive BondPortState where
  | Active
  | Backup
  | OtherState (v : Nat)
deriving DecidableEq, Repr

/-- `From<u8> for BondPortState`. -/
def BondPortState.fromU8 : Nat → BondPortState
  | 0 => .Active
  | 1 => .Backup
  | v => .OtherState v

/-- `From<BondPortState> for u8`. -/
def BondPortState.toU8 : BondPortState → Nat
  | .Active => IFLA_BOND_PORT_STATE_ACTIVE
  | .Backup => IFLA_BOND_PORT_STATE_BACKUP
  | .OtherState v => v

/-- The `MiiStatus` bounded enumeration with its unknown-code escape. -/
inductive MiiStatus where
  | Up
  | GoingDown
  | Down
  | GoingBack
  | OtherStatus (v : Nat)
deriving DecidableEq, Repr

/-- `From<u8> for MiiStatus`. -/
def MiiStatus.fromU8 : Nat → MiiStatus
  | 0 => .Up
  | 1 => .GoingDown
  | 2 => .Down
  | 3 => .GoingBack
  | v => .OtherStatus v

/-- `From<MiiStatus> for u8`. -/
def MiiStatus.toU8 : MiiStatus → Nat
  | .Up => IFLA_BOND_PORT_MII_STATUS_UP
  | .GoingDown => IFLA_BOND_PORT_MII_STATUS_GOING_DOWN
  | .Down => IFLA_BOND_PORT_MII_STATUS_DOWN
  | .GoingBack => IFLA_BOND_PORT_MII_STATUS_GOING_BACK
  | .OtherStatus v => v

def ADDRESSS_CACHE_INFO_LEN : Nat := 16

/-- The fixed-layout `CacheInfo` auxiliary structure (four `u32` fields). -/
structure CacheInfo where
  ifa_preferred : Nat
  ifa_valid : Nat
  cstamp : Nat
  tstamp : Nat
deriving DecidableEq, Repr

/-- Little-endian `u32` field accessor of the bounded field buffer:
read four bytes at the given offset. -/
def read_u32_at (bytes : List Nat) (off : Nat) : Nat :=
  bytes.getD off 0 + 256 * bytes.getD (off + 1) 0
    + 65536 * bytes.getD (off + 2) 0 + 16777216 * bytes.getD (off + 3) 0

/-- `CacheInfoBuffer::new_checked` followed by `<CacheInfo as Parseable>::parse`:
validate the 16-byte minimum length once, then read each field at its fixed
offset. -/
def CacheInfo.parse (bytes : List Nat) : Except String CacheInfo :=
  if bytes.length < ADDRESSS_CACHE_INFO_LEN then .error "buffer too small"
  else .ok ⟨read_u32_at bytes 0, read_u32_at bytes 4,
            read_u32_at bytes 8, read_u32_at bytes 12⟩

/-- `<CacheInfo as Emitable>::buffer_len`. -/
def CacheInfo.buffer_len (_ : CacheInfo) : Nat := ADDRESSS_CACHE_INFO_LEN

/-- `<CacheInfo as Emitable>::emit`: write the four `u32` fields at offsets
0, 4, 8, 12. -/
def CacheInfo.emit (c : CacheInfo) : List Nat :=
  write_u32_le c.ifa_preferred ++ write_u32_le c.ifa_valid
    ++ write_u32_le c.cstamp ++ write_u32_le c.tstamp

/-- Round a length up to the next multiple of four (NLA alignment). -/
def alignUp4 (n : Nat) : Nat := (n + 3) / 4 * 4

/-- Modelled from the spec: one step stream of the TLV iterator
(`NlasIterator`), with explicit fuel to keep the recursion structural.
At each cursor position: an empty remainder ends the stream; a nonzero
remainder below the four-byte header is a decode failure; the header
carries the kind code and the total record length (covering the header);
a length below four or past the end of the blob is a decode failure;
otherwise the record is yielded and the cursor advances by the length
rounded up to a multiple of four. -/
def nlaItemsFuel : Nat → List Nat → List (Except String NlaRaw)
  | 0, bytes => if bytes = [] then [] else [.error "out of fuel"]
  | _ + 1, [] => []
  | fuel + 1, b0 :: b1 :: b2 :: b3 :: rest =>
      let kind := b0 + 256 * b1
      let len := b2 + 256 * b3
      if len < 4 || 4 + rest.length < len then [.error "malformed nla length"]
      else .ok ⟨kind, rest.take (len - 4)⟩
        :: nlaItemsFuel fuel (rest.drop (alignUp4 len - 4))
  | _ + 1, _ => [.error "nla remainder below minimum header size"]

/-- Modelled from the spec: the finite item stream of the TLV iterator over
a blob.  The blob's length is always enough fuel, since every record
consumes at least four bytes. -/
def nlaItems (bytes : List Nat) : List (Except String NlaRaw) :=
  nlaItemsFuel bytes.length bytes

/-- The attribute-sequence loop shared by `Vec<LinkAttribute>::parse_with_param`,
`Vec<NeighbourAttribute>::parse_with_param`,
`Vec<NeighbourTableAttribute>::parse` and `VecTcOption::parse_with_param`:
unwrap each iterator item, parse it, and push, returning on the first
failure. -/
def seqLoop {α : Type} (p : NlaRaw → Except String α) :
    List (Except String NlaRaw) → Except String (List α)
  | [] => .ok []
  | item :: rest =>
      match item with
      | .error e => .error e
      | .ok r =>
        match p r with
        | .error e => .error e
        | .ok a =>
          match seqLoop p rest with
          | .error e => .error e
          | .ok l => .ok (a :: l)

/-- Parsing an attribute sequence from a blob: run the loop over the TLV
iterator's item stream.  This is the body of the `parse_with_param`
implementations in `link/message.rs` and `neighbour/message.rs`, with the
per-record attribute parser abstracted as `p`. -/
def parseNlaSequence {α : Type} (p : NlaRaw → Except String α)
    (bytes : List Nat) : Except String (List α) :=
  seqLoop p (nlaItems bytes)

/-- Map a fallible function over a list, propagating the first error in
order. -/
def mapExcept {α β : Type} (f : β → Except String α) :
    List β → Except String (List α)
  | [] => .ok []
  | x :: rest =>
      match f x with
      | .error e => .error e
      | .ok a =>
        match mapExcept f rest with
        | .error e => .error e
        | .ok l => .ok (a :: l)

/-- Modelled from the spec: the driver-kind strings of the five known
traffic-control option namespaces (`TcQdiscIngress::KIND` and friends live
outside the analyzed sources). -/
def TC_INGRESS_KIND : String := "ingress"

def TC_FLOWER_KIND : String := "flower"

def TC_FQ_CODEL_KIND : String := "fq_codel"

def TC_U32_KIND : String := "u32"

def TC_MATCHALL_KIND : String := "matchall"

/-- Whether a driver-kind string is one of the five known option namespaces
matched by `VecTcOption::parse_with_param`. -/
def tcKnownKind (kind : String) : Bool :=
  kind = TC_U32_KIND || kind = TC_MATCHALL_KIND || kind = TC_FLOWER_KIND
    || kind = TC_INGRESS_KIND || kind = TC_FQ_CODEL_KIND

/-- The `TcOption` tagged union.  The payload types of the five known
option families (`TcQdiscFqCodelOption` etc.) are outside the analyzed
sources, so they are type parameters. -/
inductive TcOption (A B C D E : Type) where
  | FqCodel (o : A)
  | Ingress (o : B)
  | Flower (o : C)
  | U32 (o : D)
  | MatchAll (o : E)
  | Other (nla : DefaultNla)
deriving DecidableEq, Repr

/-- Modelled from the spec: the per-family option decoders
(`TcQdiscFqCodelOption::parse` etc.) live outside the analyzed sources and
are taken as parameters. -/
structure TcKnownParsers (A B C D E : Type) where
  fqCodel : NlaRaw → Except String A
  ingress : NlaRaw → Except String B
  flower : NlaRaw → Except String C
  u32 : NlaRaw → Except String D
  matchAll : NlaRaw → Except String E

/-- `TcOption::parse_with_param`: dispatch one record on the driver-kind
string, falling back to the opaque attribute for unknown kinds. -/
def TcOption.parse_with_param {A B C D E : Type}
    (P : TcKnownParsers A B C D E) (buf : NlaRaw) (kind : String) :
    Except String (TcOption A B C D E) :=
  if kind = TC_INGRESS_KIND then (P.ingress buf).map .Ingress
  else if kind = TC_FLOWER_KIND then (P.flower buf).map .Flower
  else if kind = TC_FQ_CODEL_KIND then (P.fqCodel buf).map .FqCodel
  else if kind = TC_U32_KIND then (P.u32 buf).map .U32
  else if kind = TC_MATCHALL_KIND then (P.matchAll buf).map .MatchAll
  else (DefaultNla.parse buf).map .Other

/-- `VecTcOption::parse_with_param`: for a known driver-kind string, loop
the TLV iterator over the record's value and parse each nested record;
otherwise store the whole record as a single opaque option. -/
def VecTcOption.parse_with_param {A B C D E : Type}
    (P : TcKnownParsers A B C D E) (buf : NlaRaw) (kind : String) :
    Except String (List (TcOption A B C D E)) :=
  if tcKnownKind kind then
    seqLoop (fun r => TcOption.parse_with_param P r kind) (nlaItems buf.value)
  else (DefaultNla.parse buf).map (fun nla => [.Other nla])

/-- The attribute capability of §4.2, as the three operations a family's
`Nla` implementation provides (functionally: `emit_value` is the byte list
written). -/
structure NlaCap (α : Type) where
  kindOf : α → Nat
  value_len : α → Nat
  emit_value : α → List Nat

/-- The capability instance of the `InfoVxlan` family. -/
def vxlanCap : NlaCap InfoVxlan :=
  ⟨InfoVxlan.kindOf, InfoVxlan.value_len, InfoVxlan.emit_value⟩

/-- Modelled from the spec: the wire bytes of one attribute record header —
kind code then total length, two little-endian `u16` fields. -/
def nlaHeaderBytes (kind len : Nat) : List Nat :=
  write_u16_le kind ++ write_u16_le len

/-- Modelled from the spec: the wire bytes of one emitted attribute record:
header, value, then zero padding up to four-byte alignment. -/
def emitNla {α : Type} (cap : NlaCap α) (a : α) : List Nat :=
  nlaHeaderBytes (cap.kindOf a) (4 + cap.value_len a)
    ++ cap.emit_value a
    ++ List.replicate (alignUp4 (4 + cap.value_len a) - (4 + cap.value_len a)) 0

/-- Modelled from the spec: `buffer_len` of an emitted attribute slice —
the sum of the aligned record lengths. -/
def nlaSeqLen {α : Type} (cap : NlaCap α) (attrs : List α) : Nat :=
  (attrs.map (fun a => alignUp4 (4 + cap.value_len a))).sum

/-- Modelled from the spec: emitting an attribute slice writes each record
in list order at successive aligned offsets. -/
def nlaSeqEmit {α : Type} (cap : NlaCap α) : List α → List Nat
  | [] => []
  | a :: rest => emitNla cap a ++ nlaSeqEmit cap rest

/-- `buffer_len` of a message (`link`, `neighbour`, `neighbour_table`):
the header's length plus the attribute slice's length. -/
def messageBufferLen {α : Type} (cap : NlaCap α) (hdrLen : Nat)
    (attrs : List α) : Nat :=
  hdrLen + nlaSeqLen cap attrs

/-- `emit` of a message: the header bytes first, then the attribute slice
starting at offset `header.buffer_len()`. -/
def messageEmit {α : Type} (cap : NlaCap α) (hdr : List Nat)
    (attrs : List α) : List Nat :=
  hdr ++ nlaSeqEmit cap attrs

theorem parse_u16_write_le (v : Nat) (h : v < 65536) :
    parse_u16 (write_u16_le v) = .ok v := by
  simp only [write_u16_le, parse_u16]
  congr 1
  omega

theorem parse_u16_write_be (v : Nat) (h : v < 65536) :
    parse_u16_be (write_u16_be v) = .ok v := by
  simp only [write_u16_be, parse_u16_be]
  congr 1
  omega

theorem parse_u32_write_le (v : Nat) (h : v < 4294967296) :
    parse_u32 (write_u32_le v) = .ok v := by
  simp only [write_u32_le, parse_u32]
  congr 1
  omega

/-- C8: the 16-byte buffer `[10,0,0,0, 20,0,0,0, 30,0,0,0, 40,0,0,0]` parses
to `CacheInfo{ifa_preferred:10, ifa_valid:20, cstamp:30, tstamp:40}`, that
value's `buffer_len()` is 16, and emitting it reproduces the identical
16 bytes. -/
theorem cache_info_end_to_end :
    CacheInfo.parse [10,0,0,0, 20,0,0,0, 30,0,0,0, 40,0,0,0]
        = .ok ⟨10, 20, 30, 40⟩
    ∧ CacheInfo.buffer_len ⟨10, 20, 30, 40⟩ = 16
    ∧ CacheInfo.emit ⟨10, 20, 30, 40⟩
        = [10,0,0,0, 20,0,0,0, 30,0,0,0, 40,0,0,0] :=
  ⟨rfl, rfl, rfl⟩

/-- C9: for the presence-only vxlan attributes `Gbp`, `Gpe` and
`RemCsumNoPartial`, `value_len()` is 0 and `emit_value` writes nothing
regardless of the stored boolean, and parsing a record with one of these
kind codes yields the variant carrying `true` regardless of the payload. -/
theorem vxlan_presence_only (b : Bool) (payload : List Nat) :
    (InfoVxlan.value_len (.Gbp b) = 0
      ∧ InfoVxlan.emit_value (.Gbp b) = []
      ∧ InfoVxlan.parse ⟨IFLA_VXLAN_GBP, payload⟩ = .ok (.Gbp true))
    ∧ (InfoVxlan.value_len (.Gpe b) = 0
      ∧ InfoVxlan.emit_value (.Gpe b) = []
      ∧ InfoVxlan.parse ⟨IFLA_VXLAN_GPE, payload⟩ = .ok (.Gpe true))
    ∧ (InfoVxlan.value_len (.RemCsumNoPartial b) = 0
      ∧ InfoVxlan.emit_value (.RemCsumNoPartial b) = []
      ∧ InfoVxlan.parse ⟨IFLA_VXLAN_REMCSUM_NOPARTIAL, payload⟩
          = .ok (.RemCsumNoPartial true)) :=
  ⟨⟨rfl, rfl, rfl⟩, ⟨rfl, rfl, rfl⟩, ⟨rfl, rfl, rfl⟩⟩

/-- C3: for each bounded enumeration (`BondPortState`, `MiiStatus`,
`IpVlanMode`), an integer code outside the named set parses to the
`Other(c)` escape variant, named variants convert back to their fixed
codes, and the code-to-enum-to-code composite is the identity on every
input code of the Rust integer width. -/
theorem enum_other_escape_identity (c d : Nat) (hc : c < 256)
    (hd : d < 65536) :
    ((c ≠ 0 → c ≠ 1 → BondPortState.fromU8 c = .OtherState c)
      ∧ BondPortState.toU8 (BondPortState.fromU8 c) = c
      ∧ BondPortState.toU8 .Active = 0 ∧ BondPortState.toU8 .Backup = 1)
    ∧ ((c ≠ 0 → c ≠ 1 → c ≠ 2 → c ≠ 3 → MiiStatus.fromU8 c = .OtherStatus c)
      ∧ MiiStatus.toU8 (MiiStatus.fromU8 c) = c
      ∧ MiiStatus.toU8 .Up = 0 ∧ MiiStatus.toU8 .GoingDown = 1
      ∧ MiiStatus.toU8 .Down = 2 ∧ MiiStatus.toU8 .GoingBack = 3)
    ∧ ((d ≠ 0 → d ≠ 1 → d ≠ 2 → IpVlanMode.fromU16 d = .OtherMode d)
      ∧ IpVlanMode.toU16 (IpVlanMode.fromU16 d) = d
      ∧ IpVlanMode.toU16 .L2 = 0 ∧ IpVlanMode.toU16 .L3 = 1
      ∧ IpVlanMode.toU16 .L3S = 2) := by
  refine ⟨⟨?_, ?_, rfl, rfl⟩, ⟨?_, ?_, rfl, rfl, rfl, rfl⟩, ⟨?_, ?_, rfl, rfl, rfl⟩⟩
  · rcases c with _ | _ | n <;> simp [BondPortState.fromU8]
  · rcases c with _ | _ | n <;> rfl
  · rcases c with _ | _ | _ | _ | n <;> simp [MiiStatus.fromU8]
  · rcases c with _ | _ | _ | _ | n <;> rfl
  · rcases d with _ | _ | _ | m <;> simp [IpVlanMode.fromU16]
  · rcases d with _ | _ | _ | m <;> rfl

/-- C3 witness: concrete out-of-range codes 7 (u8 enums) and 9 (u16 enum)
parse to the escape variant and convert back to themselves. -/
theorem enum_other_escape_identity_witness :
    (BondPortState.fromU8 7 = .OtherState 7
      ∧ BondPortState.toU8 (BondPortState.fromU8 7) = 7)
    ∧ (MiiStatus.fromU8 7 = .OtherStatus 7
      ∧ MiiStatus.toU8 (MiiStatus.fromU8 7) = 7)
    ∧ (IpVlanMode.fromU16 9 = .OtherMode 9
      ∧ IpVlanMode.toU16 (IpVlanMode.fromU16 9) = 9) := by
  have h := enum_other_escape_identity 7 9 (by decide) (by decide)
  exact ⟨⟨h.1.1 (by decide) (by decide), h.1.2.1⟩,
    ⟨h.2.1.1 (by decide) (by decide) (by decide) (by decide), h.2.1.2.1⟩,
    ⟨h.2.2.1 (by decide) (by decide) (by decide), h.2.2.2.1⟩⟩

/-- C4: parsing an `IFLA_IPVLAN_FLAGS` record whose value is any 16-bit
word `w` yields `Flags(f)` with `f.bits() = w`, and `emit_value` writes
exactly `w` back, so unrecognized bits survive a parse-then-emit round
trip. -/
theorem ipvlan_flags_retain_bits (w : Nat) (h : w < 65536) :
    InfoIpVlan.parse ⟨IFLA_IPVLAN_FLAGS, write_u16_le w⟩
        = .ok (.Flags (IpVlanFlags.from_bits_retain w))
    ∧ (IpVlanFlags.from_bits_retain w).bits = w
    ∧ InfoIpVlan.emit_value (.Flags (IpVlanFlags.from_bits_retain w))
        = write_u16_le w := by
  refine ⟨?_, rfl, rfl⟩
  have h1 : InfoIpVlan.parse ⟨IFLA_IPVLAN_FLAGS, write_u16_le w⟩
      = (parse_u16 (write_u16_le w)).map
          (fun v => .Flags (IpVlanFlags.from_bits_retain v)) := rfl
  rw [h1, parse_u16_write_le w h]
  rfl

/-- C4 witness: the word `0xFFFC` has every named bit clear and many
unnamed bits set; it round-trips bit-for-bit. -/
theorem ipvlan_flags_retain_bits_witness :
    InfoIpVlan.parse ⟨IFLA_IPVLAN_FLAGS, write_u16_le 65532⟩
        = .ok (.Flags (IpVlanFlags.from_bits_retain 65532))
    ∧ (IpVlanFlags.from_bits_retain 65532).bits = 65532
    ∧ InfoIpVlan.emit_value (.Flags (IpVlanFlags.from_bits_retain 65532))
        = write_u16_le 65532 :=
  ipvlan_flags_retain_bits 65532 (by decide)

theorem vxlan_known_roundtrip (v : InfoVxlan) (hwf : v.wf = true)
    (hother : v.isOtherVariant = false) (hpres : v.presenceFalse = false) :
    InfoVxlan.parse ⟨v.kindOf, v.emit_value⟩ = .ok v := by
  cases v with
  | Id w =>
      have hb : w < 4294967296 := by simpa [InfoVxlan.wf] using hwf
      show (parse_u32 (write_u32_le w)).map InfoVxlan.Id = .ok (.Id w)
      rw [parse_u32_write_le w hb]; rfl
  | Link w =>
      have hb : w < 4294967296 := by simpa [InfoVxlan.wf] using hwf
      show (parse_u32 (write_u32_le w)).map InfoVxlan.Link = .ok (.Link w)
      rw [parse_u32_write_le w hb]; rfl
  | Label w =>
      have hb : w < 4294967296 := by simpa [InfoVxlan.wf] using hwf
      show (parse_u32 (write_u32_le w)).map InfoVxlan.Label = .ok (.Label w)
      rw [parse_u32_write_le w hb]; rfl
  | Ageing w =>
      have hb : w < 4294967296 := by simpa [InfoVxlan.wf] using hwf
      show (parse_u32 (write_u32_le w)).map InfoVxlan.Ageing = .ok (.Ageing w)
      rw [parse_u32_write_le w hb]; rfl
  | Limit w =>
      have hb : w < 4294967296 := by simpa [InfoVxlan.wf] using hwf
      show (parse_u32 (write_u32_le w)).map InfoVxlan.Limit = .ok (.Limit w)
      rw [parse_u32_write_le w hb]; rfl
  | Group a =>
      have h4 : a.length = 4 := by simpa [InfoVxlan.wf] using hwf
      have h1 : InfoVxlan.parse ⟨(InfoVxlan.Group a).kindOf, (InfoVxlan.Group a).emit_value⟩
          = if a.length = 4 then .ok (.Group a)
            else .error "Invalid IFLA_VXLAN_GROUP, got unexpected length of IPv4 address payload" := rfl
      rw [h1, if_pos h4]
  | Local a =>
      have h4 : a.length = 4 := by simpa [InfoVxlan.wf] using hwf
      have h1 : InfoVxlan.parse ⟨(InfoVxlan.Local a).kindOf, (InfoVxlan.Local a).emit_value⟩
          = if a.length = 4 then .ok (.Local a)
            else .error "Invalid IFLA_VXLAN_LOCAL, got unexpected length of IPv4 address payload" := rfl
      rw [h1, if_pos h4]
  | Group6 a =>
      have h16 : a.length = 16 := by simpa [InfoVxlan.wf] using hwf
      have h1 : InfoVxlan.parse ⟨(InfoVxlan.Group6 a).kindOf, (InfoVxlan.Group6 a).emit_value⟩
          = if a.length = 16 then .ok (.Group6 a)
            else .error "Invalid IFLA_VXLAN_GROUP6, got unexpected length of IPv6 address payload" := rfl
      rw [h1, if_pos h16]
  | Local6 a =>
      have h16 : a.length = 16 := by simpa [InfoVxlan.wf] using hwf
      have h1 : InfoVxlan.parse ⟨(InfoVxlan.Local6 a).kindOf, (InfoVxlan.Local6 a).emit_value⟩
          = if a.length = 16 then .ok (.Local6 a)
            else .error "Invalid IFLA_VXLAN_LOCAL6, got unexpected length of IPv6 address payload" := rfl
      rw [h1, if_pos h16]
  | Tos w => rfl
  | Ttl w => rfl
  | Df w => rfl
  | Port w =>
      have hb : w < 65536 := by simpa [InfoVxlan.wf] using hwf
      show (parse_u16_be (write_u16_be w)).map InfoVxlan.Port = .ok (.Port w)
      rw [parse_u16_write_be w hb]; rfl
  | PortRange r =>
      obtain ⟨r1, r2⟩ := r
      have hb : r1 < 65536 ∧ r2 < 65536 := by simpa [InfoVxlan.wf] using hwf
      have e1 : 256 * (r1 / 256 % 256) + r1 % 256 = r1 := by omega
      have e2 : 256 * (r2 / 256 % 256) + r2 % 256 = r2 := by omega
      show (Except.ok (InfoVxlan.PortRange
          (256 * (r1 / 256 % 256) + r1 % 256, 256 * (r2 / 256 % 256) + r2 % 256))
            : Except String InfoVxlan) = .ok (.PortRange (r1, r2))
      rw [e1, e2]
  | Learning b => cases b <;> rfl
  | Proxy b => cases b <;> rfl
  | Rsc b => cases b <;> rfl
  | L2Miss b => cases b <;> rfl
  | L3Miss b => cases b <;> rfl
  | CollectMetadata b => cases b <;> rfl
  | UDPCsum b => cases b <;> rfl
  | UDPZeroCsumTX b => cases b <;> rfl
  | UDPZeroCsumRX b => cases b <;> rfl
  | RemCsumTX b => cases b <;> rfl
  | RemCsumRX b => cases b <;> rfl
  | TtlInherit b => cases b <;> rfl
  | Vnifilter b => cases b <;> rfl
  | Localbypass b => cases b <;> rfl
  | Gbp b =>
      cases b with
      | false => simp [InfoVxlan.presenceFalse] at hpres
      | true => rfl
  | Gpe b =>
      cases b with
      | false => simp [InfoVxlan.presenceFalse] at hpres
      | true => rfl
  | RemCsumNoPartial b =>
      cases b with
      | false => simp [InfoVxlan.presenceFalse] at hpres
      | true => rfl
  | Other nla => simp [InfoVxlan.isOtherVariant] at hother

/-- C1 counterexample: the known variant `Gbp(false)` does not survive the
emit-then-parse round trip — its zero-length record re-parses as
`Gbp(true)`. -/
theorem vxlan_roundtrip_counterexample :
    InfoVxlan.parse ⟨(InfoVxlan.Gbp false).kindOf,
        (InfoVxlan.Gbp false).emit_value⟩ = .ok (.Gbp true)
    ∧ InfoVxlan.parse ⟨(InfoVxlan.Gbp false).kindOf,
        (InfoVxlan.Gbp false).emit_value⟩ ≠ .ok (.Gbp false) := by
  exact ⟨rfl, by decide⟩

/-- C1 witness: the well-formed variant `Id(42)` round-trips. -/
theorem vxlan_known_roundtrip_witness :
    InfoVxlan.parse ⟨(InfoVxlan.Id 42).kindOf, (InfoVxlan.Id 42).emit_value⟩
        = .ok (.Id 42) :=
  vxlan_known_roundtrip (.Id 42) (by decide) (by decide) (by decide)

/-- C5: for the vxlan address kinds (`IFLA_VXLAN_GROUP`, `IFLA_VXLAN_LOCAL`,
`IFLA_VXLAN_GROUP6`, `IFLA_VXLAN_LOCAL6`), parsing returns the address
variant carrying exactly the payload when its length matches the required
width (4 bytes for IPv4, 16 for IPv6) and an error for every other length;
the payload is never truncated or zero-extended. -/
theorem vxlan_address_length_strict (payload : List Nat) :
    (payload.length = 4 →
      InfoVxlan.parse ⟨IFLA_VXLAN_GROUP, payload⟩ = .ok (.Group payload))
    ∧ (payload.length ≠ 4 →
      ∃ e, InfoVxlan.parse ⟨IFLA_VXLAN_GROUP, payload⟩ = .error e)
    ∧ (payload.length = 4 →
      InfoVxlan.parse ⟨IFLA_VXLAN_LOCAL, payload⟩ = .ok (.Local payload))
    ∧ (payload.length ≠ 4 →
      ∃ e, InfoVxlan.parse ⟨IFLA_VXLAN_LOCAL, payload⟩ = .error e)
    ∧ (payload.length = 16 →
      InfoVxlan.parse ⟨IFLA_VXLAN_GROUP6, payload⟩ = .ok (.Group6 payload))
    ∧ (payload.length ≠ 16 →
      ∃ e, InfoVxlan.parse ⟨IFLA_VXLAN_GROUP6, payload⟩ = .error e)
    ∧ (payload.length = 16 →
      InfoVxlan.parse ⟨IFLA_VXLAN_LOCAL6, payload⟩ = .ok (.Local6 payload))
    ∧ (payload.length ≠ 16 →
      ∃ e, InfoVxlan.parse ⟨IFLA_VXLAN_LOCAL6, payload⟩ = .error e) := by
  have hg : InfoVxlan.parse ⟨IFLA_VXLAN_GROUP, payload⟩
      = if payload.length = 4 then .ok (.Group payload)
        else .error "Invalid IFLA_VXLAN_GROUP, got unexpected length of IPv4 address payload" := rfl
  have hl : InfoVxlan.parse ⟨IFLA_VXLAN_LOCAL, payload⟩
      = if payload.length = 4 then .ok (.Local payload)
        else .error "Invalid IFLA_VXLAN_LOCAL, got unexpected length of IPv4 address payload" := rfl
  have hg6 : InfoVxlan.parse ⟨IFLA_VXLAN_GROUP6, payload⟩
      = if payload.length = 16 then .ok (.Group6 payload)
        else .error "Invalid IFLA_VXLAN_GROUP6, got unexpected length of IPv6 address payload" := rfl
  have hl6 : InfoVxlan.parse ⟨IFLA_VXLAN_LOCAL6, payload⟩
      = if payload.length = 16 then .ok (.Local6 payload)
        else .error "Invalid IFLA_VXLAN_LOCAL6, got unexpected length of IPv6 address payload" := rfl
  refine ⟨fun h => ?_, fun h => ?_, fun h => ?_, fun h => ?_,
    fun h => ?_, fun h => ?_, fun h => ?_, fun h => ?_⟩
  · rw [hg, if_pos h]
  · exact ⟨_, by rw [hg, if_neg h]⟩
  · rw [hl, if_pos h]
  · exact ⟨_, by rw [hl, if_neg h]⟩
  · rw [hg6, if_pos h]
  · exact ⟨_, by rw [hg6, if_neg h]⟩
  · rw [hl6, if_pos h]
  · exact ⟨_, by rw [hl6, if_neg h]⟩

/-- C5 witness: a 4-byte payload parses to `Group` exactly, and the same
payload is rejected for the 16-byte `Group6` kind. -/
theorem vxlan_address_length_strict_witness :
    InfoVxlan.parse ⟨IFLA_VXLAN_GROUP, [192, 168, 0, 1]⟩
        = .ok (.Group [192, 168, 0, 1])
    ∧ ∃ e, InfoVxlan.parse ⟨IFLA_VXLAN_GROUP6, [192, 168, 0, 1]⟩
        = .error e :=
  ⟨(vxlan_address_length_strict [192, 168, 0, 1]).1 (by decide),
    (vxlan_address_length_strict [192, 168, 0, 1]).2.2.2.2.2.1 (by decide)⟩

theorem ipvtap_mirrors_ipvlan (buf : NlaRaw) (v : InfoIpVlan) :
    InfoIpVtap.parse buf = (InfoIpVlan.parse buf).map ipVtapOfIpVlan
    ∧ InfoIpVtap.kindOf (ipVtapOfIpVlan v) = InfoIpVlan.kindOf v
    ∧ InfoIpVtap.value_len (ipVtapOfIpVlan v) = InfoIpVlan.value_len v
    ∧ InfoIpVtap.emit_value (ipVtapOfIpVlan v) = InfoIpVlan.emit_value v := by
  have hne : IFLA_IPVLAN_FLAGS ≠ IFLA_IPVLAN_MODE := by decide
  refine ⟨?_, ?_, ?_, ?_⟩
  · unfold InfoIpVtap.parse InfoIpVlan.parse
    by_cases h1 : buf.kind = IFLA_IPVLAN_MODE
    · simp only [h1, if_true, eq_self_iff_true]
      cases hp : parse_u16 buf.value <;>
        simp [hp, Except.map, ipVtapOfIpVlan]
    · by_cases h2 : buf.kind = IFLA_IPVLAN_FLAGS
      · simp only [h1, h2, hne, if_true, if_false, eq_self_iff_true]
        cases hp : parse_u16 buf.value <;>
          simp [h1, hne, hp, Except.map, ipVtapOfIpVlan]
      · simp [h1, h2, DefaultNla.parse, Except.map, ipVtapOfIpVlan]
  · cases v <;> rfl
  · cases v <;> rfl
  · cases v <;> rfl

theorem seqLoop_eq_mapExcept {α : Type} (p : NlaRaw → Except String α)
    (items : List (Except String NlaRaw)) :
    seqLoop p items = mapExcept (fun it => it.bind p) items := by
  induction items with
  | nil => rfl
  | cons item rest ih =>
      cases item with
      | error e => rfl
      | ok r =>
          simp only [seqLoop, mapExcept]
          rw [show ((Except.ok r : Except String NlaRaw).bind p) = p r from rfl,
            ih]

theorem seqLoop_ok_iff {α : Type} (p : NlaRaw → Except String α)
    (items : List (Except String NlaRaw)) :
    (seqLoop p items).isOkB = true
      ↔ ∀ it ∈ items, (it.bind p).isOkB = true := by
  induction items with
  | nil => simp [seqLoop, Except.isOkB]
  | cons item rest ih =>
      simp only [List.mem_cons, forall_eq_or_imp]
      cases item with
      | error e =>
          exact iff_of_false (by simp [seqLoop, Except.isOkB])
            (by rintro ⟨h1, -⟩; simp [Except.bind, Except.isOkB] at h1)
      | ok r =>
          have redH : ((Except.ok r : Except String NlaRaw).bind p) = p r := rfl
          cases hp : p r with
          | error e =>
              refine iff_of_false ?_ ?_
              · simp [seqLoop, hp, Except.isOkB]
              · rintro ⟨h1, -⟩
                rw [redH, hp] at h1
                simp [Except.isOkB] at h1
          | ok a =>
              cases hl : seqLoop p rest with
              | error e =>
                  rw [hl] at ih
                  refine iff_of_false ?_ ?_
                  · simp [seqLoop, hp, hl, Except.isOkB]
                  · rintro ⟨-, ht⟩
                    have := ih.mpr ht
                    simp [Except.isOkB] at this
              | ok l =>
                  rw [hl] at ih
                  refine iff_of_true ?_ ⟨?_, ih.mp rfl⟩
                  · simp [seqLoop, hp, hl, Except.isOkB]
                  · rw [redH, hp]; rfl

theorem seqLoop_first_error {α : Type} (p : NlaRaw → Except String α) :
    ∀ (pre : List (Except String NlaRaw)) (it : Except String NlaRaw)
      (post : List (Except String NlaRaw)) (e : String),
      (∀ a ∈ pre, (a.bind p).isOkB = true) → it.bind p = .error e →
      seqLoop p (pre ++ it :: post) = .error e := by
  intro pre
  induction pre with
  | nil =>
      intro it post e _ hit
      cases it with
      | error e2 =>
          simp only [Except.bind] at hit
          cases hit
          rfl
      | ok r =>
          simp only [Except.bind] at hit
          simp [seqLoop, hit]
  | cons a pre ih =>
      intro it post e hpre hit
      have ha := hpre a (List.mem_cons_self a pre)
      cases a with
      | error e2 => simp [Except.bind, Except.isOkB] at ha
      | ok r =>
          have hpr : (p r).isOkB = true := by
            simpa [Except.bind] using ha
          cases hp : p r with
          | error e2 => rw [hp] at hpr; simp [Except.isOkB] at hpr
          | ok a2 =>
              have hstep : seqLoop p ((Except.ok r :: pre) ++ it :: post)
                  = match p r with
                    | .error e2 => .error e2
                    | .ok a3 =>
                      match seqLoop p (pre ++ it :: post) with
                      | .error e2 => .error e2
                      | .ok l => .ok (a3 :: l) := rfl
              rw [hstep, hp,
                ih it post e (fun x hx => hpre x (List.mem_cons_of_mem _ hx))
                  hit]

/-- C6: the attribute-sequence loop of the message parsers succeeds exactly
when every iterator item and per-record parse succeeds, and if the items
up to some position all parse while that position fails, the whole parse
returns precisely that first error (and no partial list). -/
theorem attr_sequence_fail_fast {α : Type} (p : NlaRaw → Except String α)
    (bytes : List Nat) :
    ((parseNlaSequence p bytes).isOkB = true
      ↔ ∀ it ∈ nlaItems bytes, (it.bind p).isOkB = true)
    ∧ (∀ pre it post e, nlaItems bytes = pre ++ it :: post →
        (∀ a ∈ pre, (a.bind p).isOkB = true) → it.bind p = .error e →
        parseNlaSequence p bytes = .error e) := by
  constructor
  · exact seqLoop_ok_iff p (nlaItems bytes)
  · intro pre it post e hsplit hpre hit
    unfold parseNlaSequence
    rw [hsplit]
    exact seqLoop_first_error p pre it post e hpre hit

/-- C2: `VecTcOption::parse_with_param` with a known driver-kind string
parses the record's value as a nested TLV stream into typed options,
propagating errors in order; with any unknown kind string it returns
exactly the one-element list holding the opaque record spanning the whole
value. -/
theorem tc_driver_kind_gating {A B C D E : Type} (P : TcKnownParsers A B C D E)
    (buf : NlaRaw) (kind : String) :
    (tcKnownKind kind = true →
      VecTcOption.parse_with_param P buf kind
        = mapExcept
            (fun it => it.bind fun r => TcOption.parse_with_param P r kind)
            (nlaItems buf.value))
    ∧ (tcKnownKind kind = false →
      VecTcOption.parse_with_param P buf kind
        = .ok [.Other ⟨buf.kind, buf.value⟩]) := by
  constructor
  · intro h
    unfold VecTcOption.parse_with_param
    simp only [h, if_true]
    exact seqLoop_eq_mapExcept _ _
  · intro h
    unfold VecTcOption.parse_with_param
    simp only [h, Bool.false_eq_true, if_false]
    simp [DefaultNla.parse, Except.map]

/-- C6 witness: a stream holding one `IFLA_VXLAN_GROUP` record with a
1-byte payload fails the vxlan attribute parse with exactly that record's
error. -/
theorem attr_sequence_fail_fast_witness :
    parseNlaSequence InfoVxlan.parse [2, 0, 5, 0, 9, 0, 0, 0]
      = .error "Invalid IFLA_VXLAN_GROUP, got unexpected length of IPv4 address payload" :=
  (attr_sequence_fail_fast InfoVxlan.parse [2, 0, 5, 0, 9, 0, 0, 0]).2
    [] (.ok ⟨2, [9]⟩) [] _ rfl (by simp) rfl

/-- Trivial instantiation of the abstract per-family option decoders, used
to exercise the traffic-control gating on concrete inputs. -/
def tcUnitParsers : TcKnownParsers Unit Unit Unit Unit Unit :=
  ⟨fun _ => .ok (), fun _ => .ok (), fun _ => .ok (),
    fun _ => .ok (), fun _ => .ok ()⟩

/-- C2 witness: the unknown kind string `"sfq"` yields exactly one opaque
option wrapping the whole record, while the known kind `"u32"` parses the
nested stream. -/
theorem tc_driver_kind_gating_witness :
    VecTcOption.parse_with_param tcUnitParsers ⟨1, [5, 0, 6, 0, 7, 0, 8, 0]⟩
        "sfq" = .ok [.Other ⟨1, [5, 0, 6, 0, 7, 0, 8, 0]⟩]
    ∧ VecTcOption.parse_with_param tcUnitParsers ⟨1, [5, 0, 4, 0]⟩ "u32"
        = mapExcept
            (fun it => it.bind fun r =>
              TcOption.parse_with_param tcUnitParsers r "u32")
            (nlaItems [5, 0, 4, 0]) :=
  ⟨(tc_driver_kind_gating tcUnitParsers ⟨1, [5, 0, 6, 0, 7, 0, 8, 0]⟩
      "sfq").2 rfl,
    (tc_driver_kind_gating tcUnitParsers ⟨1, [5, 0, 4, 0]⟩ "u32").1 rfl⟩

theorem alignUp4_ge (n : Nat) : n ≤ alignUp4 n := by
  simp only [alignUp4]
  omega

theorem emitNla_length {α : Type} (cap : NlaCap α) (a : α)
    (h : (cap.emit_value a).length = cap.value_len a) :
    (emitNla cap a).length = alignUp4 (4 + cap.value_len a) := by
  have := alignUp4_ge (4 + cap.value_len a)
  simp [emitNla, nlaHeaderBytes, write_u16_le, h]
  omega

theorem nlaSeqEmit_append {α : Type} (cap : NlaCap α) (l1 l2 : List α) :
    nlaSeqEmit cap (l1 ++ l2) = nlaSeqEmit cap l1 ++ nlaSeqEmit cap l2 := by
  induction l1 with
  | nil => rfl
  | cons a l1 ih => simp [nlaSeqEmit, ih]

theorem nlaSeqEmit_length {α : Type} (cap : NlaCap α) (attrs : List α)
    (h : ∀ x ∈ attrs, (cap.emit_value x).length = cap.value_len x) :
    (nlaSeqEmit cap attrs).length = nlaSeqLen cap attrs := by
  induction attrs with
  | nil => rfl
  | cons a rest ih =>
      simp only [nlaSeqEmit, nlaSeqLen, List.map_cons, List.sum_cons,
        List.length_append]
      rw [emitNla_length cap a (h a (List.mem_cons_self a rest)),
        ih (fun x hx => h x (List.mem_cons_of_mem _ hx))]
      rfl

/-- C7: a message's `buffer_len()` is the header's fixed length plus the
sum over the attribute list of `round_up_to_multiple_of_4(4 + value_len())`,
and `emit()` writes the header into the first `header.buffer_len()` bytes
and then each attribute's kind/length/value, in list order, at the
successive padded offsets. -/
theorem message_emit_layout {α : Type} (cap : NlaCap α) (hdr : List Nat)
    (hdrLen : Nat) (attrs pre post : List α) (a : α)
    (hcoh : ∀ x ∈ attrs, (cap.emit_value x).length = cap.value_len x)
    (hhdr : hdr.length = hdrLen)
    (hsplit : attrs = pre ++ a :: post) :
    messageBufferLen cap hdrLen attrs
        = hdrLen + ((attrs.map fun x => alignUp4 (4 + cap.value_len x)).sum)
    ∧ (messageEmit cap hdr attrs).length = messageBufferLen cap hdrLen attrs
    ∧ (messageEmit cap hdr attrs).take hdrLen = hdr
    ∧ ((messageEmit cap hdr attrs).drop (hdrLen + nlaSeqLen cap pre)).take
          (4 + cap.value_len a)
        = nlaHeaderBytes (cap.kindOf a) (4 + cap.value_len a)
            ++ cap.emit_value a := by
  have hmem : a ∈ attrs := by
    rw [hsplit]; exact List.mem_append_right _ (List.mem_cons_self a post)
  have hpre : ∀ x ∈ pre, (cap.emit_value x).length = cap.value_len x :=
    fun x hx => hcoh x (by rw [hsplit]; exact List.mem_append_left _ hx)
  refine ⟨rfl, ?_, ?_, ?_⟩
  · simp [messageEmit, messageBufferLen, nlaSeqEmit_length cap attrs hcoh,
      hhdr]
  · rw [← hhdr]
    exact List.take_left hdr (nlaSeqEmit cap attrs)
  · subst hsplit
    have h1 : messageEmit cap hdr (pre ++ a :: post)
        = (hdr ++ nlaSeqEmit cap pre)
            ++ (emitNla cap a ++ nlaSeqEmit cap post) := by
      simp [messageEmit, nlaSeqEmit_append, nlaSeqEmit, List.append_assoc]
    have hlen1 : (hdr ++ nlaSeqEmit cap pre).length
        = hdrLen + nlaSeqLen cap pre := by
      simp [hhdr, nlaSeqEmit_length cap pre hpre]
    rw [h1, ← hlen1, List.drop_left]
    have h2 : emitNla cap a ++ nlaSeqEmit cap post
        = (nlaHeaderBytes (cap.kindOf a) (4 + cap.value_len a)
              ++ cap.emit_value a)
            ++ (List.replicate
                  (alignUp4 (4 + cap.value_len a) - (4 + cap.value_len a)) 0
                ++ nlaSeqEmit cap post) := by
      simp [emitNla, List.append_assoc]
    have hlen2 : (nlaHeaderBytes (cap.kindOf a) (4 + cap.value_len a)
        ++ cap.emit_value a).length = 4 + cap.value_len a := by
      simp [nlaHeaderBytes, write_u16_le, hcoh a hmem]
      omega
    rw [h2]
    generalize hL : nlaHeaderBytes (cap.kindOf a) (4 + cap.value_len a)
        ++ cap.emit_value a = L at hlen2 ⊢
    rw [← hlen2, List.take_left]

/-- C7 witness: a 16-byte header followed by `Id(42)` (8 aligned bytes) and
`Learning(true)` (5 bytes padded to 8) — the second record's header and
value sit at offset 16 + 8. -/
theorem message_emit_layout_witness :
    messageBufferLen vxlanCap 16 [InfoVxlan.Id 42, InfoVxlan.Learning true]
        = 16 + (([InfoVxlan.Id 42, InfoVxlan.Learning true].map
            fun x => alignUp4 (4 + vxlanCap.value_len x)).sum)
    ∧ (messageEmit vxlanCap (List.replicate 16 0)
          [InfoVxlan.Id 42, InfoVxlan.Learning true]).length
        = messageBufferLen vxlanCap 16
            [InfoVxlan.Id 42, InfoVxlan.Learning true]
    ∧ (messageEmit vxlanCap (List.replicate 16 0)
          [InfoVxlan.Id 42, InfoVxlan.Learning true]).take 16
        = List.replicate 16 0
    ∧ ((messageEmit vxlanCap (List.replicate 16 0)
          [InfoVxlan.Id 42, InfoVxlan.Learning true]).drop
            (16 + nlaSeqLen vxlanCap [InfoVxlan.Id 42])).take
          (4 + vxlanCap.value_len (InfoVxlan.Learning true))
        = nlaHeaderBytes (vxlanCap.kindOf (InfoVxlan.Learning true))
            (4 + vxlanCap.value_len (InfoVxlan.Learning true))
            ++ vxlanCap.emit_value (InfoVxlan.Learning true) :=
  message_emit_layout vxlanCap (List.replicate 16 0) 16
    [InfoVxlan.Id 42, InfoVxlan.Learning true] [InfoVxlan.Id 42] []
    (InfoVxlan.Learning true) (by decide) (by decide) rfl
